import Mathlib

/-!
Verification of the collab3 plugin-manager core against its specification.

Shallow embedding of `src/core/PluginManager.cpp` (plugin handshake,
load dispatch, manager init, unload stub) and, since its implementation
header is not part of the sources given, a spec-modelled configuration
store matching `server/test/core/ConfigStore.cpp`.

Modelling conventions:
* `boost::dll::shared_library` is modelled as a `Module` record of the
  exports the code looks up; `so.get<...>(name)` is modelled as a lookup
  that yields `none` when the export is absent (this is exactly the
  convention the null-checks of the source assume).
* Side effects (export resolution, export invocation, log output) are
  recorded in an event trace so that temporal claims ("never resolved",
  "invoked at most once", "one warning emitted") become statements about
  the trace.
* `g_ServerPlugins` (a `std::vector<plugin::IServerPlugin*>`, i.e. a list
  of bare handles with no destructor or owning module recorded) is
  threaded explicitly as a `List Nat` of handle values.
* The C++ `HandlePluginLoad` is a template recursion over two booleans;
  in the source a successful handshake makes control flow off the end of
  the non-void function, which is undefined behaviour: that case is made
  explicit as `LoadResult.undefinedReturn` (side effects performed before
  the missing return are kept).  The recursion is given explicit fuel;
  no reachable execution needs depth more than 3.
-/

namespace Collab3

/-- Modelled from the spec: the compiled ABI version of the host
(`plugin::PLUGIN_ABI_VERSION`, declared in a header outside the given
sources).  Only equality with the version a module reports matters, so the
concrete value is immaterial. -/
def PLUGIN_ABI_VERSION : Int := 1

/-- The error enumeration of `PluginManager.cpp` (lines 81-88), verbatim:
note there is no `Rejected` constructor in the source. -/
inductive PluginLoadError where
  | NoError
  | NotPlugin
  | AbiMismatch
  | ExportNotFound
  | NotServerPlugin
  | NotCorePlugin
deriving DecidableEq, Repr

/-- Log severities used by the manager (spdlog info/warn/error). -/
inductive LogLevel where
  | info
  | warn
  | error
deriving DecidableEq, Repr

/-- Observable side effects of the load machinery: resolving an export,
invoking an export, and emitting a log line. -/
inductive Event where
  | resolve (sym : String)
  | invoke (sym : String)
  | log (level : LogLevel) (text : String)
deriving DecidableEq, Repr

/-- A candidate binary module, described by the exports the handshake code
looks up.  `abi_version = none` models a missing `collabvm_plugin_abi_version`
export; `make_serverplugin = some none` models a factory export that is
present but returns a null pointer; `make_serverplugin = some (some h)`
a factory returning the non-null handle `h`. -/
structure Module where
  abi_version : Option Int
  init_api : Bool
  make_serverplugin : Option (Option Nat)
  delete_serverplugin : Bool
deriving DecidableEq, Repr

/-- Embedding of `PluginHandshake<CorePluginHandShake, ControllerPluginHandShake>`
(`PluginManager.cpp` lines 93-139).  Returns the error code, the event
trace of the attempt, and the handles pushed onto `g_ServerPlugins`.
The `core`/`controller` branches of the source are TODO stubs that fall
through to `return PluginLoadError::NoError` without touching any further
export. -/
def PluginHandshake (core controller : Bool) (so : Module) :
    PluginLoadError × List Event × List Nat :=
  let t0 : List Event := [.resolve "collabvm_plugin_abi_version"]
  match so.abi_version with
  | none => (.NotPlugin, t0, [])
  | some v =>
    let t1 := t0 ++ [.invoke "collabvm_plugin_abi_version"]
    if v ≠ PLUGIN_ABI_VERSION then
      (.AbiMismatch, t1, [])
    else
      let t2 := t1 ++ [.resolve "collabvm_plugin_init_api"]
      if !so.init_api then
        (.ExportNotFound, t2, [])
      else
        let t3 := t2 ++ [.invoke "collabvm_plugin_init_api"]
        if !core && !controller then
          let t4 := t3 ++ [.resolve "collabvm_plugin_make_serverplugin",
                           .resolve "collabvm_plugin_delete_serverplugin"]
          match so.make_serverplugin, so.delete_serverplugin with
          | none, _ => (.ExportNotFound, t4, [])
          | some _, false => (.ExportNotFound, t4, [])
          | some r, true =>
            let t5 := t4 ++ [.invoke "collabvm_plugin_make_serverplugin"]
            match r with
            | none => (.NotServerPlugin, t5, [])
            | some h => (.NoError, t5, [h])
        else
          -- coreplugin / controllerplugin handshakes: TODO in the source,
          -- no code is executed before `return PluginLoadError::NoError`.
          (.NoError, t3, [])

/-- Result of `HandlePluginLoad`: either the value the C++ function
returned, or the undefined value produced by control flowing off the end
of the non-void function (the `res == NoError` path has no `return`
statement), or exhaustion of the modelling fuel (unreachable with fuel ≥ 3). -/
inductive LoadResult where
  | ok (r : PluginLoadError)
  | undefinedReturn
  | outOfFuel
deriving DecidableEq, Repr

/-- Embedding of `HandlePluginLoad<coreplugin, controllerplugin>`
(`PluginManager.cpp` lines 141-160).  On `NotServerPlugin` it retries the
same module as a core plugin; on `NotCorePlugin` as a controller plugin;
other non-`NoError` codes are returned as-is; on `NoError` control falls
off the end of the function (undefined return value). -/
def HandlePluginLoad : Nat → Bool → Bool → Module →
    LoadResult × List Event × List Nat
  | 0, _, _, _ => (.outOfFuel, [], [])
  | fuel + 1, core, controller, so =>
    let res := PluginHandshake core controller so
    match res.1 with
    | .NotServerPlugin =>
      let rec2 := HandlePluginLoad fuel true false so
      (rec2.1, res.2.1 ++ rec2.2.1, res.2.2 ++ rec2.2.2)
    | .NotCorePlugin =>
      let rec2 := HandlePluginLoad fuel false true so
      (rec2.1, res.2.1 ++ rec2.2.1, res.2.2 ++ rec2.2.2)
    | .NoError => (.undefinedReturn, res.2.1, res.2.2)
    | e => (.ok e, res.2.1, res.2.2)

/-- The top-level call `HandlePluginLoad<>(so)` made by `LoadPlugin`:
both template parameters default to `false`.  Fuel 3 covers the three
template instantiations that exist. -/
def HandlePluginLoadTop (so : Module) : LoadResult × List Event × List Nat :=
  HandlePluginLoad 3 false false so

/-- Embedding of `PluginManager::LoadPlugin` (`PluginManager.cpp` lines
189-208).  The switch turns `ExportNotFound` and `AbiMismatch` into an
error log plus `false`; every other *defined* result falls through to
`return true`.  When the return value of `HandlePluginLoad` is undefined the
result of `LoadPlugin` is undefined too, modelled as `none`. -/
def LoadPlugin (path : String) (so : Module) :
    Option Bool × List Event × List Nat :=
  let r := HandlePluginLoadTop so
  match r.1 with
  | .ok .ExportNotFound =>
    (some false,
     r.2.1 ++ [.log .error ("plugin " ++ path ++ " is probably NOT a collabvm server plugin")],
     r.2.2)
  | .ok .AbiMismatch =>
    (some false,
     r.2.1 ++ [.log .error ("plugin " ++ path ++ " has an mismatching CollabVM ABI version.")],
     r.2.2)
  | .ok _ => (some true, r.2.1, r.2.2)
  | _ => (none, r.2.1, r.2.2)

/-- Embedding of the per-file loop body of `PluginManager::Init`
(`PluginManager.cpp` lines 172-177): log intent, attempt the load, and
warn if `LoadPlugin` returned `false`.  (When the result of `LoadPlugin` is
undefined, no theorem below relies on this branch.) -/
def InitLoop : List (String × Module) → List Event × List Nat
  | [] => ([], [])
  | (path, so) :: rest =>
    let t0 : List Event := [.log .info ("Going to load plugin " ++ path)]
    let r := LoadPlugin path so
    let t2 : List Event :=
      match r.1 with
      | some false => [.log .warn ("Plugin " ++ path ++ " failed to load :(")]
      | _ => []
    let rr := InitLoop rest
    (t0 ++ r.2.1 ++ t2 ++ rr.1, r.2.2 ++ rr.2)

/-- Abstract filesystem state seen by `PluginManager::Init`: whether the
`plugins` directory exists, whether `std::filesystem::create_directory`
would succeed, and the candidate files in the directory. -/
structure FsState where
  pluginsDirExists : Bool
  createDirectorySucceeds : Bool
  files : List (String × Module)
deriving Repr

/-- Embedding of `PluginManager::Init` (`PluginManager.cpp` lines 162-181).
If the directory is missing it logs an info line and calls
`create_directory`, whose result (`fs.createDirectorySucceeds`) is
ignored; it then iterates the directory entries and returns `true`
unconditionally. -/
def Init (fs : FsState) : Bool × List Event × List Nat :=
  let t0 : List Event :=
    if !fs.pluginsDirExists then
      [.log .info "PluginManager::Init: Plugins folder not found. Creating folder."]
    else []
  let r := InitLoop fs.files
  (true, t0 ++ r.1, r.2)

/-- Embedding of `PluginManager::UnloadPlugins` (`PluginManager.cpp`
lines 183-186): it logs a TODO line and does nothing else — the plugin
list is untouched and no destructor export is invoked. -/
def UnloadPlugins (serverPlugins : List Nat) : List Nat × List Event :=
  (serverPlugins, [.log .info "PluginManager::UnloadPlugins: TODO"])

/-! ## Concrete modules used as test vectors -/

/-- A well-formed stub server plugin: matching ABI, `init_api` present,
factory returns the non-null sentinel handle 42, destructor present. -/
def mStub : Module :=
  { abi_version := some PLUGIN_ABI_VERSION
    init_api := true
    make_serverplugin := some (some 42)
    delete_serverplugin := true }

/-- A module whose `make_serverplugin` export is present but returns null. -/
def mNullFactory : Module :=
  { abi_version := some PLUGIN_ABI_VERSION
    init_api := true
    make_serverplugin := some none
    delete_serverplugin := true }

/-- A module lacking the `make_serverplugin` export (destructor present). -/
def mMissingFactory : Module :=
  { abi_version := some PLUGIN_ABI_VERSION
    init_api := true
    make_serverplugin := none
    delete_serverplugin := true }

/-- A module lacking the `collabvm_plugin_abi_version` export. -/
def mNoAbi : Module :=
  { abi_version := none
    init_api := true
    make_serverplugin := some (some 7)
    delete_serverplugin := true }

/-- A module reporting an ABI version different from the one of the host. -/
def mWrongAbi : Module :=
  { abi_version := some (PLUGIN_ABI_VERSION + 1)
    init_api := true
    make_serverplugin := some (some 7)
    delete_serverplugin := true }

end Collab3

namespace Collab3

/-!
Configuration store collaborator.  Its implementation header
(`core/config/ConfigStore.hpp`) is not among the given sources; only its
test (`server/test/core/ConfigStore.cpp`) is.  The store is therefore
modelled from the collaborator contract in the spec.
-/

/-- Modelled from the spec: the typed values a configuration cell may
hold (the types exercised by the test: bool, string, uint64, int64).
`ConfigStore.hpp` is missing from the given sources.  Unsigned 64-bit
values are kept reduced modulo 2 ^ 64. -/
inductive ConfigValue where
  | vBool (b : Bool)
  | vString (s : String)
  | vUInt64 (n : Nat)
  | vInt64 (n : Int)
deriving DecidableEq, Repr

/-- Modelled from the spec: the two lookup failures of the store,
`NonExistentValue` (key absent) and `InvalidType` (stored type differs). -/
inductive ConfigError where
  | NonExistentValue
  | InvalidType
deriving DecidableEq, Repr

/-- Modelled from the spec: the configuration store is a mapping from
string keys to typed values, here an association list. -/
abbrev ConfigStore := List (String × ConfigValue)

namespace ConfigStore

/-- A default-constructed store holds no values. -/
def empty : ConfigStore := []

/-- Look up the value stored under a key, if any. -/
def lookup : ConfigStore → String → Option ConfigValue
  | [], _ => none
  | (k2, v) :: rest, k => if k2 = k then some v else lookup rest k

/-- Modelled from the spec: `store[key].Exists() → bool`. -/
def Exists (s : ConfigStore) (k : String) : Bool :=
  (lookup s k).isSome

/-- Modelled from the spec: `store[key].Remove()`. -/
def Remove (s : ConfigStore) (k : String) : ConfigStore :=
  s.filter fun p => p.1 != k

/-- Modelled from the spec: `store[key].Set<uint64>(value)`, replacing any
previous value under the key. -/
def SetUInt64 (s : ConfigStore) (k : String) (n : Nat) : ConfigStore :=
  (k, ConfigValue.vUInt64 (n % 2 ^ 64)) :: Remove s k

/-- Modelled from the spec: `store[key].As<uint64>()`, failing with
`NonExistentValue` if the key is absent and `InvalidType` if the stored
type differs. -/
def AsUInt64 (s : ConfigStore) (k : String) : Except ConfigError Nat :=
  match lookup s k with
  | none => .error .NonExistentValue
  | some (.vUInt64 n) => .ok n
  | some _ => .error .InvalidType

/-- Modelled from the spec: `store[key].As<string>()`. -/
def AsString (s : ConfigStore) (k : String) : Except ConfigError String :=
  match lookup s k with
  | none => .error .NonExistentValue
  | some (.vString str) => .ok str
  | some _ => .error .InvalidType

/-- Modelled from the spec: `store[key].Is<uint64>()`. -/
def IsUInt64 (s : ConfigStore) (k : String) : Bool :=
  match lookup s k with
  | some (.vUInt64 _) => true
  | _ => false

end ConfigStore

/-- Predicate picking out warning-level log events in a trace. -/
def isWarnLog : Event → Bool
  | .log .warn _ => true
  | _ => false

/-- Predicate picking out log events of any severity in a trace. -/
def isLog : Event → Bool
  | .log _ _ => true
  | _ => false

end Collab3

namespace Collab3

/-- Predicate picking out error-level log events in a trace. -/
def isErrorLog : Event → Bool
  | .log .error _ => true
  | _ => false

/-- Helper: any handshake attempt on a module reporting a non-matching ABI
version stops with `AbiMismatch` after resolving and invoking only the
`collabvm_plugin_abi_version` export. -/
theorem handshake_abi_mismatch (core controller : Bool) (m : Module) (v : Int)
    (hv : m.abi_version = some v) (hne : v ≠ PLUGIN_ABI_VERSION) :
    PluginHandshake core controller m =
      (PluginLoadError.AbiMismatch,
       [Event.resolve "collabvm_plugin_abi_version",
        Event.invoke "collabvm_plugin_abi_version"], []) := by
  unfold PluginHandshake
  rw [hv]
  simp [hne]

/-- C1: the claim says a null server factory leads to probing Core then
Controller and, after all three kinds fail, to a terminal Rejected.  The
code diverges: after the null factory the core retry is a TODO stub that
resolves no factory export at all (the only `make_serverplugin` resolution
in the whole trace is the first attempt), reports `NoError` without
instantiating anything, and control then falls off the end of the non-void
`HandlePluginLoad` (undefined return) — the Controller kind is never
probed and no Rejected outcome exists in `PluginLoadError`.  Moreover a
missing factory/destructor export pair does not advance to the next kind:
it returns `ExportNotFound` terminally after a single attempt (only one
`init_api` invocation in the trace). -/
theorem C1_kind_probe_divergence :
    (HandlePluginLoadTop mNullFactory).1 = LoadResult.undefinedReturn ∧
    (HandlePluginLoadTop mNullFactory).2.1.count
        (Event.resolve "collabvm_plugin_make_serverplugin") = 1 ∧
    (HandlePluginLoadTop mNullFactory).2.2 = [] ∧
    (HandlePluginLoadTop mMissingFactory).1 =
        LoadResult.ok PluginLoadError.ExportNotFound ∧
    (HandlePluginLoadTop mMissingFactory).2.1.count
        (Event.invoke "collabvm_plugin_init_api") = 1 :=
  ⟨rfl, rfl, rfl, rfl, rfl⟩

/-- C2: the claim says `init_api` is invoked at most once per load attempt
and every factory invocation happens strictly after that single
invocation.  The code diverges: for a module whose server factory returns
null, the retry as a core plugin reruns the whole handshake, so
`init_api` is invoked twice within the one `LoadPlugin` attempt, and the
factory invocation (event 7 of the trace) precedes the second `init_api`
invocation (event 11). -/
theorem C2_init_api_double_invocation :
    HandlePluginLoadTop mNullFactory =
      (LoadResult.undefinedReturn,
       [Event.resolve "collabvm_plugin_abi_version",
        Event.invoke "collabvm_plugin_abi_version",
        Event.resolve "collabvm_plugin_init_api",
        Event.invoke "collabvm_plugin_init_api",
        Event.resolve "collabvm_plugin_make_serverplugin",
        Event.resolve "collabvm_plugin_delete_serverplugin",
        Event.invoke "collabvm_plugin_make_serverplugin",
        Event.resolve "collabvm_plugin_abi_version",
        Event.invoke "collabvm_plugin_abi_version",
        Event.resolve "collabvm_plugin_init_api",
        Event.invoke "collabvm_plugin_init_api"], []) ∧
    (HandlePluginLoadTop mNullFactory).2.1.count
        (Event.invoke "collabvm_plugin_init_api") = 2 :=
  ⟨rfl, rfl⟩

/-- C3: for every module whose `abi_version` export returns a value
different from the compiled ABI version of the host, the load ends with
the terminal outcome `AbiMismatch`, and the trace consists exactly of
resolving and invoking `collabvm_plugin_abi_version` — in particular
`collabvm_plugin_init_api` is never resolved nor invoked, and nothing is
registered.  Confirmed. -/
theorem C3_abi_mismatch_terminal (m : Module) (v : Int)
    (hv : m.abi_version = some v) (hne : v ≠ PLUGIN_ABI_VERSION) :
    HandlePluginLoadTop m =
      (LoadResult.ok PluginLoadError.AbiMismatch,
       [Event.resolve "collabvm_plugin_abi_version",
        Event.invoke "collabvm_plugin_abi_version"], []) := by
  show HandlePluginLoad (2 + 1) false false m = _
  rw [HandlePluginLoad]
  rw [handshake_abi_mismatch false false m v hv hne]

/-- Witness for C3 at the concrete module `mWrongAbi`, which reports
ABI version `PLUGIN_ABI_VERSION + 1`. -/
theorem C3_abi_mismatch_terminal_witness :
    HandlePluginLoadTop mWrongAbi =
      (LoadResult.ok PluginLoadError.AbiMismatch,
       [Event.resolve "collabvm_plugin_abi_version",
        Event.invoke "collabvm_plugin_abi_version"], []) :=
  C3_abi_mismatch_terminal mWrongAbi (PLUGIN_ABI_VERSION + 1) rfl (by decide)

/-- C4: for every module lacking the `abi_version` export, the load ends
with outcome `NotPlugin` (the name the source gives to NotAPlugin), and
the trace is exactly the single resolution of
`collabvm_plugin_abi_version` — no other export is resolved during the
handshake.  Confirmed. -/
theorem C4_missing_abi_not_a_plugin (m : Module)
    (h : m.abi_version = none) :
    HandlePluginLoadTop m =
      (LoadResult.ok PluginLoadError.NotPlugin,
       [Event.resolve "collabvm_plugin_abi_version"], []) := by
  show HandlePluginLoad (2 + 1) false false m = _
  rw [HandlePluginLoad]
  unfold PluginHandshake
  rw [h]

/-- Witness for C4 at the concrete module `mNoAbi`. -/
theorem C4_missing_abi_not_a_plugin_witness :
    HandlePluginLoadTop mNoAbi =
      (LoadResult.ok PluginLoadError.NotPlugin,
       [Event.resolve "collabvm_plugin_abi_version"], []) :=
  C4_missing_abi_not_a_plugin mNoAbi rfl

/-- C5: the claim says every registered handle is stored together with
the destructor export of its owning module.  The code diverges: on a
successful server handshake the destructor export
`collabvm_plugin_delete_serverplugin` is resolved (it appears in the
trace) but only the bare handle is pushed onto `g_ServerPlugins`, whose
element type (`plugin::IServerPlugin*`, here `Nat`) carries no destructor
and no owning module — the resolved destructor is discarded. -/
theorem C5_registry_bare_handle :
    PluginHandshake false false mStub =
      (PluginLoadError.NoError,
       [Event.resolve "collabvm_plugin_abi_version",
        Event.invoke "collabvm_plugin_abi_version",
        Event.resolve "collabvm_plugin_init_api",
        Event.invoke "collabvm_plugin_init_api",
        Event.resolve "collabvm_plugin_make_serverplugin",
        Event.resolve "collabvm_plugin_delete_serverplugin",
        Event.invoke "collabvm_plugin_make_serverplugin"], [42]) :=
  rfl

/-- C6: the claim says `UnloadAll` invokes each stored destructor exactly
once in reverse insertion order.  The code diverges: after loading the
stub server plugin (registry holds handle 42), `UnloadPlugins` emits a
TODO log line, leaves the plugin list unchanged and invokes no destructor
export at all. -/
theorem C6_unload_invokes_no_destructor :
    (HandlePluginLoadTop mStub).2.2 = [42] ∧
    UnloadPlugins [42] =
      ([42], [Event.log LogLevel.info "PluginManager::UnloadPlugins: TODO"]) ∧
    (UnloadPlugins [42]).2.count
        (Event.invoke "collabvm_plugin_delete_serverplugin") = 0 :=
  ⟨rfl, rfl, rfl⟩

/-- C7: the claim says registering the same (module, handle) pair a
second time fails with a duplicate-registration error and leaves the
registry unchanged.  The code diverges: loading the same stub module
twice pushes the same handle onto `g_ServerPlugins` twice, and no
warning or error is logged. -/
theorem C7_duplicate_registration_stored_twice :
    (Init ⟨true, true, [("p", mStub), ("p", mStub)]⟩).2.2 = [42, 42] ∧
    (Init ⟨true, true, [("p", mStub), ("p", mStub)]⟩).2.1.filter isWarnLog
      = [] ∧
    (Init ⟨true, true, [("p", mStub), ("p", mStub)]⟩).2.1.filter isErrorLog
      = [] :=
  ⟨rfl, rfl, rfl⟩

/-- C8: the claim says every module whose load or handshake ends in a
non-success outcome produces exactly one warning naming the path and the
host proceeds, treating the module as failed.  The code diverges for the
`NotPlugin` outcome: a module lacking `abi_version` makes the handshake
end in `NotPlugin` (non-success), yet the switch in `LoadPlugin` ignores
that code, `LoadPlugin` returns `true`, and `Init` emits no warning and
no error for the module at all. -/
theorem C8_notplugin_reported_success_no_warning :
    (HandlePluginLoadTop mNoAbi).1 = LoadResult.ok PluginLoadError.NotPlugin ∧
    LoadPlugin "bad" mNoAbi =
      (some true, [Event.resolve "collabvm_plugin_abi_version"], []) ∧
    (Init ⟨true, true, [("bad", mNoAbi)]⟩).2.1.filter isWarnLog = [] ∧
    (Init ⟨true, true, [("bad", mNoAbi)]⟩).2.1.filter isErrorLog = [] :=
  ⟨rfl, rfl, rfl, rfl⟩

/-- C9: the claim says that initialization creates a missing plugins
directory without treating that as an error (true in the code: only an
info line is logged) but must report a fatal startup error when creation
fails.  The code diverges on the second half: the result of
`create_directory` is ignored — `Init` returns the same successful result
whether creation fails or succeeds, with `true` as its return value. -/
theorem C9_create_failure_reports_success :
    (Init ⟨false, false, []⟩).1 = true ∧
    Init ⟨false, false, []⟩ = Init ⟨false, true, []⟩ ∧
    (Init ⟨false, false, []⟩).2.1 =
      [Event.log LogLevel.info
        "PluginManager::Init: Plugins folder not found. Creating folder."] :=
  ⟨rfl, rfl, rfl⟩

/-- The store obtained from an empty configuration store by setting the
64-bit unsigned value 32 under the key "value" (the scenario of the
ConfigStore test). -/
def storeAfterSet : ConfigStore :=
  ConfigStore.SetUInt64 ConfigStore.empty "value" 32

/-- The store obtained from `storeAfterSet` by removing the key "value". -/
def storeAfterRemove : ConfigStore :=
  ConfigStore.Remove storeAfterSet "value"

/-- C10: in the configuration store, after setting a 64-bit unsigned
integer under key "value": `Exists` is true, `Is<uint64>` is true,
`As<string>` fails with `InvalidType` (and `As<uint64>` succeeds); after
`Remove`, `Exists` is false and `As<uint64>` fails with
`NonExistentValue`.  Confirmed against the spec-modelled store, matching
the assertions of `server/test/core/ConfigStore.cpp`. -/
theorem C10_config_store_contract :
    ConfigStore.Exists storeAfterSet "value" = true ∧
    ConfigStore.IsUInt64 storeAfterSet "value" = true ∧
    ConfigStore.AsString storeAfterSet "value" =
      Except.error ConfigError.InvalidType ∧
    ConfigStore.AsUInt64 storeAfterSet "value" = Except.ok 32 ∧
    ConfigStore.Exists storeAfterRemove "value" = false ∧
    ConfigStore.AsUInt64 storeAfterRemove "value" =
      Except.error ConfigError.NonExistentValue := by
  exact ⟨rfl, rfl, rfl, rfl, rfl, rfl⟩

end Collab3
